import Mathlib

/-!
Shallow embedding of the container lifecycle and port-allocation subsystem of
the trainings-api-hub repository.

Sources embedded:
* `packages/main-backend/src/services/DockerService.ts` (class `DockerService`:
  `allocatePort`, `isPortInUse`, `createContainer`, `startContainer`,
  `stopContainer`, `removeContainer`, `getContainerStatus`,
  `cleanupOrphanedContainers`);
* `packages/main-backend/src/routes/instanceRoutes.ts` (the POST, GET and
  DELETE `/api/instances` handlers);
* the `ApiInstance` model of `packages/main-backend/prisma/schema.prisma`.

The Docker daemon is modelled as an explicit state (`DockerState`, a list of
containers); each dockerode call becomes a pure function on that state which
returns `Except String _` where the call can fail.  The Prisma store is a
`DbState` (a list of `ApiInstance` rows plus a fresh-id counter standing for
the uuid generator).  Environmental outcomes the daemon decides at run time
(whether a container create or start call is rejected, what a `listContainers`
call returns during `isPortInUse`) are passed in as explicit parameters, so a
single pure function covers every environment.  Timestamps are `Nat`
parameters; logging calls are dropped (they do not affect any data).
-/

/-- The `status` column of `ApiInstance` (a string in SQLite; the code writes
only CREATING, RUNNING and STOPPED, the spec also names STOPPING and ERROR). -/
inductive Status where
  | CREATING
  | RUNNING
  | STOPPING
  | STOPPED
  | ERROR
deriving DecidableEq, Repr

/-- One row of the `api_instances` table (`schema.prisma`, model `ApiInstance`).
`id` is a `Nat` standing for the generated uuid (freshness is what matters);
`stoppedAt` is the nullable stop timestamp. -/
structure ApiInstance where
  id : Nat
  userId : String
  containerId : String
  containerName : String
  url : String
  port : Nat
  status : Status
  stoppedAt : Option Nat
deriving DecidableEq, Repr

/-- The Prisma store: the `api_instances` rows plus the id generator. -/
structure DbState where
  instances : List ApiInstance
  nextId : Nat
deriving DecidableEq, Repr

/-- A Docker container as the daemon reports it: id, running flag, raw state
string, the host port bound to the fixed internal port 3000 (if any), and the
value of the `api-hub.service` label. -/
structure Container where
  id : String
  running : Bool
  state : String
  hostPort : Option Nat
  serviceLabel : String
deriving DecidableEq, Repr

/-- The Docker daemon's state: the containers that exist on the host. -/
structure DockerState where
  containers : List Container
deriving DecidableEq, Repr

/-! ## Docker daemon primitives (dockerode calls) -/

/-- `container.inspect()`: returns the container's data, or fails when no
container with that id exists. -/
def dockerInspect (d : DockerState) (ref : String) : Except String Container :=
  match d.containers.find? (fun c => c.id == ref) with
  | some c => .ok c
  | none => .error ("No such container: " ++ ref)

/-- `container.stop({t})`: marks the container exited, or fails when no
container with that id exists. -/
def dockerStop (d : DockerState) (ref : String) : Except String DockerState :=
  if d.containers.any (fun c => c.id == ref) then
    .ok ⟨d.containers.map (fun c =>
      if c.id == ref then { c with running := false, state := "exited" } else c)⟩
  else
    .error ("No such container: " ++ ref)

/-- `container.remove({force})`: deletes the container; with `force` a running
container is removed too; fails when no container with that id exists. -/
def dockerRemove (d : DockerState) (ref : String) (force : Bool) :
    Except String DockerState :=
  match d.containers.find? (fun c => c.id == ref) with
  | some c =>
      if c.running && !force then
        .error ("cannot remove a running container: " ++ ref)
      else
        .ok ⟨d.containers.filter (fun c => !(c.id == ref))⟩
  | none => .error ("No such container: " ++ ref)

/-- `container.start()`: marks the container running (the embedding lets the
caller decide via an oracle whether the daemon rejects the call; this is the
success path's effect). -/
def dockerStart (d : DockerState) (ref : String) : DockerState :=
  ⟨d.containers.map (fun c =>
    if c.id == ref then { c with running := true, state := "running" } else c)⟩

/-! ## DockerService methods -/

/-- `DockerService.MIN_PORT`. -/
def MIN_PORT : Nat := 3001

/-- `DockerService.MAX_PORT`. -/
def MAX_PORT : Nat := 4000

/-- `DockerService.stopContainer`: calls `container.stop({t: 10})` and wraps a
failure in a `Container stop failed:` error. -/
def stopContainer (d : DockerState) (containerId : String) :
    Except String DockerState :=
  match dockerStop d containerId with
  | .ok d' => .ok d'
  | .error e => .error ("Container stop failed: " ++ e)

/-- The inner try-block of `DockerService.removeContainer`: inspect first and,
when the container is reported running, stop it; any failure there (inspect or
stop) is only logged and the daemon state at hand is kept. -/
def removePrep (d : DockerState) (containerId : String) : DockerState :=
  match dockerInspect d containerId with
  | .ok info =>
      if info.running then
        match stopContainer d containerId with
        | .ok d' => d'
        | .error _ => d
      else d
  | .error _ => d

/-- `DockerService.removeContainer`: the stop-first try-block (`removePrep`),
then `container.remove({force: true})`, wrapping a removal failure in a
`Container removal failed:` error. -/
def removeContainer (d : DockerState) (containerId : String) :
    Except String DockerState :=
  match dockerRemove (removePrep d containerId) containerId true with
  | .ok d2 => .ok d2
  | .error e => .error ("Container removal failed: " ++ e)

/-- The record `DockerService.getContainerStatus` resolves to: id, raw status
string, running flag, bound host port, and the error message when inspection
failed. -/
structure ContainerStatus where
  id : String
  status : String
  running : Bool
  port : Option Nat
  error : Option String
deriving DecidableEq, Repr

/-- `DockerService.getContainerStatus`: inspects the container and reports its
raw state and the host port bound to `3000/tcp`; every inspection failure is
caught and turned into a `status: error, running: false` result carrying the
error message — the method itself never fails. -/
def getContainerStatus (d : DockerState) (containerId : String) :
    ContainerStatus :=
  match dockerInspect d containerId with
  | .ok c =>
      { id := containerId, status := c.state, running := c.running,
        port := c.hostPort, error := none }
  | .error e =>
      { id := containerId, status := "error", running := false,
        port := none, error := some e }

/-- `DockerService.isPortInUse`: lists all containers and reports whether any
of them publishes the given host port; when the listing itself fails the error
is caught and the port is assumed available (`return false`).  The listing
result (success with the containers seen, or failure) is the `listing`
parameter. -/
def isPortInUse (listing : Except String (List Container)) (port : Nat) :
    Bool :=
  match listing with
  | .ok containers => containers.any (fun c => c.hostPort == some port)
  | .error _ => false

/-- The spec's "active instance": status CREATING or RUNNING (the `where`
clause of `allocatePort`'s store query). -/
def isActive (r : ApiInstance) : Bool :=
  r.status == Status.CREATING || r.status == Status.RUNNING

/-- The ports of the rows `prisma.apiInstance.findMany({where: {status: {in:
['CREATING','RUNNING']}}, select: {port}})` returns, as `allocatePort` reads
them. -/
def activePorts (db : DbState) : List Nat :=
  (db.instances.filter isActive).map (·.port)

/-- `DockerService.allocatePort`: scans `MIN_PORT..MAX_PORT` ascending and
returns the first port that is neither among the store's active-instance ports
nor (per `isPortInUse`, whose per-call listing result is `listings port`)
published by a live container; when the scan finds none it throws, and its own
catch block wraps the error as `Port allocation failed:`. -/
def allocatePort (usedPorts : List Nat)
    (listings : Nat → Except String (List Container)) : Except String Nat :=
  match (List.range' MIN_PORT (MAX_PORT - MIN_PORT + 1)).find?
      (fun port => !usedPorts.contains port && !isPortInUse (listings port) port) with
  | some port => .ok port
  | none =>
      .error ("Port allocation failed: No available ports in range " ++
        toString MIN_PORT ++ "-" ++ toString MAX_PORT)

/-- One iteration of `cleanupOrphanedContainers`' loop: a container whose id
is among the store's `containerId`s is skipped; otherwise
`removeContainer` is attempted and a failure is only logged. -/
def cleanupStep (dbContainerIds : List String) (d : DockerState)
    (c : Container) : DockerState :=
  if dbContainerIds.contains c.id then d
  else
    match removeContainer d c.id with
    | .ok d' => d'
    | .error _ => d

/-- `DockerService.cleanupOrphanedContainers`: lists the containers bearing the
label `api-hub.service=dummy-api`, reads the `containerId` of every
`api_instances` row (all statuses), and removes each labelled container whose
id is not among them, continuing past individual removal failures. -/
def cleanupOrphanedContainers (d : DockerState) (db : DbState) : DockerState :=
  let labelled := d.containers.filter (fun c => c.serviceLabel == "dummy-api")
  let dbContainerIds := db.instances.map (·.containerId)
  labelled.foldl (cleanupStep dbContainerIds) d

/-! ## Route handlers (`instanceRoutes.ts`) -/

/-- The environment-decided outcomes of one POST `/api/instances` request:
what `docker.createContainer` returns (the new container's runtime id, or the
daemon's rejection message, e.g. a duplicate host-port bind), and whether
`container.start()` is rejected (`some` error message) or succeeds (`none`). -/
structure CreateOracle where
  createResult : Except String String
  startError : Option String
deriving Repr

/-- `prisma.apiInstance.create`: appends a row under a fresh generated id. -/
def dbCreate (db : DbState) (userId containerId containerName url : String)
    (port : Nat) (status : Status) : DbState × Nat :=
  let row : ApiInstance :=
    { id := db.nextId, userId := userId, containerId := containerId,
      containerName := containerName, url := url, port := port,
      status := status, stoppedAt := none }
  (⟨db.instances ++ [row], db.nextId + 1⟩, db.nextId)

/-- `prisma.apiInstance.update({where: {id}, data})`: rewrites the status (and
optionally `stoppedAt`) of the row(s) with the given id. -/
def dbUpdateStatus (db : DbState) (id : Nat) (status : Status)
    (stoppedAt : Option Nat) : DbState :=
  ⟨db.instances.map (fun r =>
    if r.id == id then
      { r with status := status, stoppedAt := match stoppedAt with
          | some t => some t
          | none => r.stoppedAt }
    else r), db.nextId⟩

/-- `prisma.apiInstance.findFirst({where: {id, userId, stoppedAt: null}})`. -/
def dbFindActive (db : DbState) (id : Nat) (userId : String) :
    Option ApiInstance :=
  db.instances.find? (fun r =>
    r.id == id && r.userId == userId && r.stoppedAt == none)

/-- The JSON payload the POST handler answers with on success. -/
structure InstanceResponse where
  id : Nat
  containerId : String
  containerName : String
  url : String
  port : Nat
  status : String
deriving DecidableEq, Repr

/-- POST `/api/instances`: allocate a port and create the container
(`DockerService.createContainer`), persist a CREATING row, start the
container, flip the row to RUNNING, and answer 201; any thrown error is caught
and re-thrown as a 500 `Failed to create instance:` ApiError.  Returns the
resulting store, daemon state, and response.  `ts` is `Date.now()` as used in
the generated container name. -/
def createInstanceHandler (db : DbState) (d : DockerState)
    (listings : Nat → Except String (List Container)) (oracle : CreateOracle)
    (userId : String) (ts : Nat) :
    DbState × DockerState × Except (String × Nat) InstanceResponse :=
  match allocatePort (activePorts db) listings with
  | .error e =>
      (db, d, .error ("Failed to create instance: Container creation failed: "
        ++ e, 500))
  | .ok port =>
    match oracle.createResult with
    | .error e =>
        (db, d, .error ("Failed to create instance: Container creation failed: "
          ++ e, 500))
    | .ok cid =>
      let containerName := "api-instance-" ++ userId ++ "-" ++ toString ts
      let url := "http://localhost:" ++ toString port
      let d1 : DockerState :=
        ⟨{ id := cid, running := false, state := "created",
           hostPort := some port, serviceLabel := "dummy-api" } :: d.containers⟩
      let (db1, newId) := dbCreate db userId cid containerName url port
        Status.CREATING
      match oracle.startError with
      | some e =>
          (db1, d1, .error ("Failed to create instance: Container start failed: "
            ++ e, 500))
      | none =>
          (dbUpdateStatus db1 newId Status.RUNNING none, dockerStart d1 cid,
            .ok { id := newId, containerId := cid,
                  containerName := containerName, url := url, port := port,
                  status := "RUNNING" })

/-- One entry of the GET `/api/instances` response. -/
structure InstanceEntry where
  id : Nat
  containerId : String
  containerName : String
  url : String
  port : Nat
  status : String
deriving DecidableEq, Repr

/-- JavaScript's `String.prototype.toUpperCase()` on the status strings at
hand (all ASCII): upper-case every character. -/
def toUpperCase (s : String) : String := ⟨s.data.map Char.toUpper⟩

/-- The per-instance body of the GET handler's `map`: re-derive the status
from `getContainerStatus` (`RUNNING` when the container runs, otherwise the
raw state upper-cased — `ERROR` when inspection failed, since
`getContainerStatus` reports `status: error` then and never throws). -/
def listEntry (d : DockerState) (r : ApiInstance) : InstanceEntry :=
  let st := getContainerStatus d r.containerId
  { id := r.id, containerId := r.containerId, containerName := r.containerName,
    url := r.url, port := r.port,
    status := if st.running then "RUNNING" else toUpperCase st.status }

/-- GET `/api/instances`: the user's rows with `stoppedAt: null`, newest
first (`orderBy createdAt desc` — row order is kept abstract here: rows are
returned in store order), each with its re-derived status. -/
def listInstancesHandler (db : DbState) (d : DockerState) (userId : String) :
    List InstanceEntry :=
  (db.instances.filter (fun r => r.userId == userId && r.stoppedAt == none)).map
    (listEntry d)

/-- DELETE `/api/instances/:id`: look the row up by `(id, userId, stoppedAt:
null)` (404 when absent), `removeContainer`, then soft-delete the row
(status STOPPED, `stoppedAt` set); a `removeContainer` failure is re-thrown as
a 500 `Failed to delete instance:` ApiError and the row is left untouched. -/
def deleteInstanceHandler (db : DbState) (d : DockerState) (userId : String)
    (id : Nat) (now : Nat) :
    Except (String × Nat) (DbState × DockerState) :=
  match dbFindActive db id userId with
  | none => .error ("Instance not found", 404)
  | some inst =>
    match removeContainer d inst.containerId with
    | .error e => .error ("Failed to delete instance: " ++ e, 500)
    | .ok d' =>
        .ok (dbUpdateStatus db inst.id Status.STOPPED (some now), d')

/-! ## Sequential execution model

`Step db db'` says one request handler, run to completion against some daemon
state and environment outcomes, takes the record store from `db` to `db'`;
`Reachable` closes the empty store under such steps.  This is the sequential
(one request at a time) execution the port-uniqueness claim quantifies
over. -/

/-- The record store a DELETE request leaves behind (the store is untouched
when the handler answers 404 or 500). -/
def deleteDbResult (db : DbState) (d : DockerState) (userId : String)
    (id : Nat) (now : Nat) : DbState :=
  match deleteInstanceHandler db d userId id now with
  | .ok (db', _) => db'
  | .error _ => db

/-- One sequential orchestrator operation on the record store: a POST
(create) or DELETE request, with arbitrary daemon state, listing results,
environment outcomes, caller and timestamps. -/
inductive Step : DbState → DbState → Prop where
  | create (db : DbState) (d : DockerState)
      (listings : Nat → Except String (List Container)) (oracle : CreateOracle)
      (userId : String) (ts : Nat) :
      Step db (createInstanceHandler db d listings oracle userId ts).1
  | delete (db : DbState) (d : DockerState) (userId : String) (id : Nat)
      (now : Nat) :
      Step db (deleteDbResult db d userId id now)

/-- The record stores reachable from the empty store under sequential create
and delete operations. -/
inductive Reachable : DbState → Prop where
  | init : Reachable ⟨[], 0⟩
  | step {db db' : DbState} : Reachable db → Step db db' → Reachable db'

/-- The port-uniqueness predicate: any two distinct rows that are both active
(status CREATING or RUNNING) carry distinct ports. -/
def portsUnique (db : DbState) : Prop :=
  db.instances.Pairwise (fun a b =>
    isActive a = true → isActive b = true → a.port ≠ b.port)

/-- Store well-formedness maintained by the id generator: every row's id is
below the counter, and ids are pairwise distinct. -/
def dbWellFormed (db : DbState) : Prop :=
  (∀ r ∈ db.instances, r.id < db.nextId) ∧
    db.instances.Pairwise (fun a b => a.id ≠ b.id)

/-! ## Concrete fixtures for witnesses and counterexamples -/

/-- The empty daemon state. -/
def dEmptyW : DockerState := ⟨[]⟩

/-- A daemon holding one running sandbox container `abc` on port 3001. -/
def dAbcW : DockerState :=
  ⟨[{ id := "abc", running := true, state := "running", hostPort := some 3001,
      serviceLabel := "dummy-api" }]⟩

/-- The empty record store. -/
def dbEmptyW : DbState := ⟨[], 0⟩

/-- A RUNNING row for container `abc` on port 3001, owner `u`. -/
def rowAbcW : ApiInstance :=
  { id := 0, userId := "u", containerId := "abc", containerName := "n1",
    url := "http://localhost:3001", port := 3001, status := Status.RUNNING,
    stoppedAt := none }

/-- A store with one RUNNING row for container `abc` on port 3001, owner `u`. -/
def dbAbcW : DbState := ⟨[rowAbcW], 1⟩

/-- A store whose only row is STOPPED but still names container `abc`. -/
def dbStoppedW : DbState :=
  ⟨[{ id := 0, userId := "u", containerId := "abc", containerName := "n1",
      url := "http://localhost:3001", port := 3001, status := Status.STOPPED,
      stoppedAt := some 3 }], 1⟩

/-- Per-port listing results that always succeed reporting no containers. -/
def listingsNone : Nat → Except String (List Container) := fun _ => .ok []

/-- Per-port listing results that report every candidate port as published by
some container. -/
def listingsAll : Nat → Except String (List Container) := fun p =>
  .ok [{ id := "c", running := true, state := "running", hostPort := some p,
         serviceLabel := "dummy-api" }]

/-- Per-port listing results that always fail (daemon listing outage). -/
def listingsDown : Nat → Except String (List Container) := fun _ =>
  .error "connect ECONNREFUSED /var/run/docker.sock"

/-! ## Helper lemmas -/

/-- `find?` over an ascending unit-step range returns the least element of the
range satisfying the predicate. -/
lemma find?_range'_spec (f : Nat → Bool) :
    ∀ (n s p : Nat), (List.range' s n).find? f = some p →
      f p = true ∧ s ≤ p ∧ p < s + n ∧ ∀ q, s ≤ q → q < p → f q = false := by
  intro n
  induction n with
  | zero => intro s p h; simp at h
  | succ n ih =>
    intro s p h
    rw [List.range'_succ] at h
    by_cases hfs : f s
    · rw [List.find?_cons_of_pos _ hfs] at h
      injection h with h
      subst h
      exact ⟨hfs, Nat.le_refl _, by omega, fun q h1 h2 => absurd h1 (by omega)⟩
    · rw [List.find?_cons_of_neg _ hfs] at h
      obtain ⟨h1, h2, h3, h4⟩ := ih (s + 1) p h
      refine ⟨h1, by omega, by omega, fun q hq1 hq2 => ?_⟩
      rcases Nat.eq_or_lt_of_le hq1 with hq | hq
      · subst hq; exact Bool.not_eq_true _ ▸ (by simpa using hfs)
      · exact h4 q hq hq2

/-- Membership in a unit-step range, in interval form. -/
lemma mem_range'_iff {s n q : Nat} :
    q ∈ List.range' s n ↔ s ≤ q ∧ q < s + n := by
  rw [List.mem_range']
  constructor
  · rintro ⟨i, hi, rfl⟩; omega
  · intro h; exact ⟨q - s, by omega, by omega⟩

/-- A port is in `activePorts` exactly when some active row carries it. -/
lemma mem_activePorts {db : DbState} {p : Nat} :
    p ∈ activePorts db ↔
      ∃ r ∈ db.instances, isActive r = true ∧ r.port = p := by
  simp only [activePorts, List.mem_map, List.mem_filter]
  constructor
  · rintro ⟨r, ⟨hr, ha⟩, hp⟩; exact ⟨r, hr, ha, hp⟩
  · rintro ⟨r, hr, ha, hp⟩; exact ⟨r, ⟨hr, ha⟩, hp⟩

/-- A `List.contains` miss is a non-membership fact. -/
lemma not_mem_of_contains_eq_false {l : List Nat} {a : Nat}
    (h : l.contains a = false) : a ∉ l := by
  intro hm
  rw [List.contains_eq_any_beq] at h
  have ha : l.any (a == ·) = true := List.any_eq_true.mpr ⟨a, hm, by simp⟩
  rw [ha] at h
  cases h

/-- Characterization of a successful `allocatePort` scan: the result is the
least port of the range passing both the store check and the live-port
check. -/
lemma allocatePort_ok {usedPorts : List Nat}
    {listings : Nat → Except String (List Container)} {p : Nat}
    (h : allocatePort usedPorts listings = .ok p) :
    MIN_PORT ≤ p ∧ p ≤ MAX_PORT ∧ p ∉ usedPorts ∧
      isPortInUse (listings p) p = false ∧
      ∀ q, MIN_PORT ≤ q → q < p →
        q ∈ usedPorts ∨ isPortInUse (listings q) q = true := by
  rw [allocatePort] at h
  cases hf : (List.range' MIN_PORT (MAX_PORT - MIN_PORT + 1)).find?
      (fun port => !usedPorts.contains port &&
        !isPortInUse (listings port) port) with
  | none => rw [hf] at h; exact absurd h (by simp)
  | some r =>
    rw [hf] at h
    injection h with h
    rw [h] at hf
    obtain ⟨h1, h2, h3, h4⟩ := find?_range'_spec _ _ _ _ hf
    simp only [Bool.and_eq_true, Bool.not_eq_true'] at h1
    refine ⟨h2, ?_, ?_, ?_, ?_⟩
    · have hlt : p < MIN_PORT + (MAX_PORT - MIN_PORT + 1) := h3
      simp only [MIN_PORT, MAX_PORT] at hlt ⊢
      omega
    · exact not_mem_of_contains_eq_false h1.1
    · exact h1.2
    · intro q hq1 hq2
      have hq := h4 q hq1 hq2
      by_cases hmem : q ∈ usedPorts
      · exact Or.inl hmem
      · have hq' : q ∉ usedPorts → isPortInUse (listings q) q = true := by
          simpa using hq
        exact Or.inr (hq' hmem)

/-- Exhaustion: when every port of the range fails one of the two checks, the
scan finds nothing and `allocatePort` fails with the no-capacity error. -/
lemma allocatePort_exhausted {usedPorts : List Nat}
    {listings : Nat → Except String (List Container)}
    (h : ∀ q, MIN_PORT ≤ q → q ≤ MAX_PORT →
      q ∈ usedPorts ∨ isPortInUse (listings q) q = true) :
    allocatePort usedPorts listings =
      .error "Port allocation failed: No available ports in range 3001-4000" := by
  rw [allocatePort]
  have hf : (List.range' MIN_PORT (MAX_PORT - MIN_PORT + 1)).find?
      (fun port => !usedPorts.contains port &&
        !isPortInUse (listings port) port) = none := by
    apply List.find?_eq_none.mpr
    intro x hx
    rw [mem_range'_iff] at hx
    have hx2 : x ≤ MAX_PORT := by
      simp only [MIN_PORT, MAX_PORT] at hx ⊢; omega
    rcases h x hx.1 hx2 with hm | hiu
    · simp only [Bool.and_eq_true, Bool.not_eq_true', not_and]
      exact fun hc => absurd hm (by simpa using hc)
    · simp [hiu]
  rw [hf]
  exact rfl

/-- Non-membership gives a `List.contains` miss. -/
lemma contains_eq_false_of_not_mem {l : List Nat} {a : Nat}
    (h : a ∉ l) : l.contains a = false := by
  rw [List.contains_eq_any_beq]
  apply List.any_eq_false.mpr
  intro x hx
  simp only [beq_iff_eq]
  intro hax
  exact h (hax ▸ hx)

/-- A port of the range that passes both checks guarantees the scan
succeeds. -/
lemma allocatePort_mem_free {usedPorts : List Nat}
    {listings : Nat → Except String (List Container)} {p : Nat}
    (h1 : MIN_PORT ≤ p) (h2 : p ≤ MAX_PORT) (h3 : p ∉ usedPorts)
    (h4 : isPortInUse (listings p) p = false) :
    ∃ q, allocatePort usedPorts listings = .ok q := by
  rw [allocatePort]
  cases hf : (List.range' MIN_PORT (MAX_PORT - MIN_PORT + 1)).find?
      (fun port => !usedPorts.contains port &&
        !isPortInUse (listings port) port) with
  | some q => exact ⟨q, rfl⟩
  | none =>
    exfalso
    have hmem : p ∈ List.range' MIN_PORT (MAX_PORT - MIN_PORT + 1) :=
      mem_range'_iff.mpr ⟨h1, by simp only [MIN_PORT, MAX_PORT] at h2 ⊢; omega⟩
    have hnp := List.find?_eq_none.mp hf p hmem
    apply hnp
    rw [contains_eq_false_of_not_mem h3, h4]
    rfl

/-- C2 — Allocator correctness: `allocatePort` returns the lowest port of
`[MIN_PORT, MAX_PORT]` that is neither carried by an active
(CREATING/RUNNING) row of the record store nor reported bound by a live
container; when every port of the range fails one of the two checks it fails
with the no-capacity error, and the create request then leaves both the store
and the daemon exactly as they were (no state change). -/
theorem allocatePort_correct :
    (∀ (db : DbState) (listings : Nat → Except String (List Container))
        (p : Nat), allocatePort (activePorts db) listings = .ok p →
      MIN_PORT ≤ p ∧ p ≤ MAX_PORT ∧
      (¬ ∃ r ∈ db.instances, isActive r = true ∧ r.port = p) ∧
      isPortInUse (listings p) p = false ∧
      (∀ q, MIN_PORT ≤ q → q < p →
        (∃ r ∈ db.instances, isActive r = true ∧ r.port = q) ∨
          isPortInUse (listings q) q = true)) ∧
    (∀ (db : DbState) (d : DockerState)
        (listings : Nat → Except String (List Container))
        (oracle : CreateOracle) (userId : String) (ts : Nat),
      (∀ q, MIN_PORT ≤ q → q ≤ MAX_PORT →
        (∃ r ∈ db.instances, isActive r = true ∧ r.port = q) ∨
          isPortInUse (listings q) q = true) →
      allocatePort (activePorts db) listings =
        .error "Port allocation failed: No available ports in range 3001-4000" ∧
      createInstanceHandler db d listings oracle userId ts =
        (db, d, .error ("Failed to create instance: Container creation failed: Port allocation failed: No available ports in range 3001-4000", 500))) := by
  constructor
  · intro db listings p h
    obtain ⟨h1, h2, h3, h4, h5⟩ := allocatePort_ok h
    refine ⟨h1, h2, ?_, h4, ?_⟩
    · intro hex
      exact h3 (mem_activePorts.mpr hex)
    · intro q hq1 hq2
      rcases h5 q hq1 hq2 with hm | hiu
      · exact Or.inl (mem_activePorts.mp hm)
      · exact Or.inr hiu
  · intro db d listings oracle userId ts h
    have halloc : allocatePort (activePorts db) listings =
        .error "Port allocation failed: No available ports in range 3001-4000" := by
      apply allocatePort_exhausted
      intro q hq1 hq2
      rcases h q hq1 hq2 with hm | hiu
      · exact Or.inl (mem_activePorts.mpr hm)
      · exact Or.inr hiu
    refine ⟨halloc, ?_⟩
    simp [createInstanceHandler, halloc]

/-- Witness for C2: with port 3001 held by a RUNNING row, the allocator hands
out 3002 (and 3002 is indeed on no active row); with every port reported
bound by a live container, it reports no capacity. -/
theorem allocatePort_correct_witness :
    (¬ ∃ r ∈ dbAbcW.instances, isActive r = true ∧ r.port = 3002) ∧
    allocatePort (activePorts dbAbcW) listingsAll =
      .error "Port allocation failed: No available ports in range 3001-4000" := by
  constructor
  · exact (allocatePort_correct.1 dbAbcW listingsNone 3002 rfl).2.2.1
  · exact (allocatePort_correct.2 dbAbcW dEmptyW listingsAll
      ⟨.ok "c", none⟩ "u" 0
      (fun q _ _ => Or.inr (by simp [isPortInUse, listingsAll]))).1

/-- C9 — Status inspection is total: `getContainerStatus` catches every
inspection failure (including a nonexistent container) and returns a record
with status `error`, `running := false` and the error message, instead of
failing; by its type it always returns a `ContainerStatus`. -/
theorem getContainerStatus_never_fails :
    ∀ (d : DockerState) (ref e : String),
      dockerInspect d ref = .error e →
      getContainerStatus d ref =
        { id := ref, status := "error", running := false, port := none,
          error := some e } := by
  intro d ref e h
  simp [getContainerStatus, h]

/-- Witness for C9: inspecting container `abc` on an empty daemon fails, and
`getContainerStatus` reports the error record instead of failing. -/
theorem getContainerStatus_never_fails_witness :
    getContainerStatus dEmptyW "abc" =
      { id := "abc", status := "error", running := false, port := none,
        error := some "No such container: abc" } :=
  getContainerStatus_never_fails dEmptyW "abc" "No such container: abc" rfl

/-- C10 — Allocation is permissive under runtime-listing failure:
`isPortInUse` returns `false` whenever the listing failed, so a listing
outage alone never makes the allocator fail — whenever the record store
leaves some port of the range free, the scan still succeeds. -/
theorem allocation_permissive_listing_failure :
    (∀ (e : String) (port : Nat), isPortInUse (.error e) port = false) ∧
    (∀ (db : DbState) (err : Nat → String) (p : Nat),
      MIN_PORT ≤ p → p ≤ MAX_PORT → p ∉ activePorts db →
      ∃ q, allocatePort (activePorts db)
        (fun port => .error (err port)) = .ok q) := by
  constructor
  · intro e port; rfl
  · intro db err p h1 h2 h3
    exact allocatePort_mem_free h1 h2 h3 rfl

/-- Witness for C10: with port 3002 free in the store and the daemon listing
down, the allocator still succeeds. -/
theorem allocation_permissive_listing_failure_witness :
    isPortInUse (Except.error "boom") 3001 = false ∧
    ∃ q, allocatePort (activePorts dbAbcW)
      (fun _ => Except.error "connect ECONNREFUSED") = .ok q := by
  constructor
  · exact allocation_permissive_listing_failure.1 "boom" 3001
  · exact allocation_permissive_listing_failure.2 dbAbcW
      (fun _ => "connect ECONNREFUSED") 3002 (by decide) (by decide) (by decide)

/-- When no container carries the id, the stop-first prep block is a no-op
(the inspect failure is swallowed). -/
lemma removePrep_absent {d : DockerState} {ref : String}
    (h : d.containers.find? (fun c => c.id == ref) = none) :
    removePrep d ref = d := by
  simp [removePrep, dockerInspect, h]

/-- When no container carries the id, `removeContainer` fails with a wrapped
no-such-container error (the force-remove itself rejects the call). -/
lemma removeContainer_absent {d : DockerState} {ref : String}
    (h : d.containers.find? (fun c => c.id == ref) = none) :
    removeContainer d ref =
      .error ("Container removal failed: No such container: " ++ ref) := by
  rw [removeContainer, removePrep_absent h]
  rw [show ("Container removal failed: No such container: " ++ ref) =
    ("Container removal failed: " ++ ("No such container: " ++ ref)) by
      rw [← String.append_assoc]; rfl]
  simp [dockerRemove, h]

/-- A successful `dockerRemove` filters out exactly the containers carrying
the id. -/
lemma dockerRemove_ok_filter {d d' : DockerState} {ref : String} {force : Bool}
    (h : dockerRemove d ref force = .ok d') :
    d'.containers = d.containers.filter (fun c => !(c.id == ref)) := by
  rw [dockerRemove] at h
  split at h
  · split at h
    · cases h
    · injection h with h
      rw [← h]
  · cases h

/-- Filtering out an id commutes past a stop-style map that rewrites only the
containers carrying that id (and never changes ids). -/
lemma filter_map_same_id (ref : String) (g : Container → Container)
    (hg : ∀ c, (g c).id = c.id) :
    ∀ l : List Container,
      (l.map (fun c => if c.id == ref then g c else c)).filter
          (fun c => !(c.id == ref)) =
        l.filter (fun c => !(c.id == ref))
  | [] => rfl
  | c :: l => by
    by_cases h : (c.id == ref) = true
    · simp only [List.map_cons, if_pos h, List.filter_cons]
      have hgid : ((g c).id == ref) = true := by rw [hg]; exact h
      simp only [hgid, h, Bool.not_true]
      exact filter_map_same_id ref g hg l
    · simp only [List.map_cons, if_neg h, List.filter_cons]
      have h' : (c.id == ref) = false := Bool.not_eq_true _ ▸ h
      simp only [h', Bool.not_false]
      rw [filter_map_same_id ref g hg l]

/-- The stop-first prep block either keeps the daemon state or merely marks
the matching containers exited. -/
lemma removePrep_cases (d : DockerState) (ref : String) :
    removePrep d ref = d ∨
      removePrep d ref = ⟨d.containers.map (fun c =>
        if c.id == ref then { c with running := false, state := "exited" }
        else c)⟩ := by
  rw [removePrep]
  cases hi : dockerInspect d ref with
  | error e => exact Or.inl rfl
  | ok info =>
    cases hr : info.running with
    | false => exact Or.inl (by simp [hr])
    | true =>
      simp only [hr, if_true]
      cases hs : stopContainer d ref with
      | error e => exact Or.inl rfl
      | ok d' =>
        rw [stopContainer] at hs
        cases hstop : dockerStop d ref with
        | error e => rw [hstop] at hs; cases hs
        | ok d'' =>
          rw [hstop] at hs
          injection hs with hs
          subst hs
          rw [dockerStop] at hstop
          by_cases hany : d.containers.any (fun c => c.id == ref) = true
          · rw [if_pos hany] at hstop
            injection hstop with hstop
            exact Or.inr hstop.symm
          · rw [if_neg hany] at hstop; cases hstop

/-- The stop-first prep block never changes which non-`ref` containers exist:
filtering `ref` out of its result equals filtering `ref` out of the input. -/
lemma removePrep_filter (d : DockerState) (ref : String) :
    (removePrep d ref).containers.filter (fun c => !(c.id == ref)) =
      d.containers.filter (fun c => !(c.id == ref)) := by
  rcases removePrep_cases d ref with h | h
  · rw [h]
  · rw [h]
    exact filter_map_same_id ref
      (fun c => { c with running := false, state := "exited" })
      (fun c => rfl) d.containers

/-- A successful `removeContainer` leaves no container carrying the id. -/
lemma removeContainer_ok_gone {d d' : DockerState} {ref : String}
    (h : removeContainer d ref = .ok d') :
    d'.containers.find? (fun c => c.id == ref) = none := by
  rw [removeContainer] at h
  cases hrem : dockerRemove (removePrep d ref) ref true with
  | error e => rw [hrem] at h; cases h
  | ok d2 =>
    rw [hrem] at h
    injection h with h
    subst h
    have hfil := dockerRemove_ok_filter hrem
    apply List.find?_eq_none.mpr
    intro c hc
    rw [hfil] at hc
    have := List.of_mem_filter hc
    simp only [Bool.not_eq_true'] at this
    simp [this]

/-- A successful `removeContainer` removes exactly the containers carrying
the id. -/
lemma removeContainer_ok_filter {d d' : DockerState} {ref : String}
    (h : removeContainer d ref = .ok d') :
    d'.containers = d.containers.filter (fun c => !(c.id == ref)) := by
  rw [removeContainer] at h
  cases hrem : dockerRemove (removePrep d ref) ref true with
  | error e => rw [hrem] at h; cases h
  | ok d2 =>
    rw [hrem] at h
    injection h with h
    subst h
    rw [dockerRemove_ok_filter hrem, removePrep_filter]

/-- C5 counterexample — removal is not idempotent: `remove` on a container
reference that does not exist fails (it is not treated as success), so after a
first successful `remove` of `abc` empties the daemon, a second `remove` of
`abc` fails. -/
theorem remove_absent_cex :
    removeContainer dEmptyW "abc" =
      .error "Container removal failed: No such container: abc" ∧
    removeContainer dAbcW "abc" = .ok dEmptyW ∧
    ∀ x, removeContainer dEmptyW "abc" ≠ .ok x := by
  refine ⟨rfl, rfl, ?_⟩
  intro x h
  cases h

/-- C5 amended — `removeContainer` swallows inspect/stop failures but
propagates the force-remove's failure, so `remove` on a nonexistent reference
fails with a wrapped no-such-container error, and the second of two
consecutive removes of the same reference always fails whenever the first
succeeded. -/
theorem removeContainer_second_call_fails :
    ∀ (d d' : DockerState) (ref : String),
      removeContainer d ref = .ok d' →
      removeContainer d' ref =
        .error ("Container removal failed: No such container: " ++ ref) := by
  intro d d' ref h
  exact removeContainer_absent (removeContainer_ok_gone h)

/-- Witness for C5 amended: removing `abc` from a daemon holding it succeeds,
and the immediate second removal fails. -/
theorem removeContainer_second_call_fails_witness :
    removeContainer dEmptyW "abc" =
      .error ("Container removal failed: No such container: " ++ "abc") :=
  removeContainer_second_call_fails dAbcW dEmptyW "abc" rfl

/-- C4 counterexample — delete on a missing container does NOT succeed: with
an owned, active row for container `abc` and a daemon that no longer has
`abc`, the DELETE handler answers a 500 error (never `.ok`), so the record is
not transitioned to STOPPED. -/
theorem delete_missing_container_cex :
    dbFindActive dbAbcW 0 "u" =
      some { id := 0, userId := "u", containerId := "abc",
             containerName := "n1", url := "http://localhost:3001",
             port := 3001, status := Status.RUNNING, stoppedAt := none } ∧
    dEmptyW.containers = [] ∧
    deleteInstanceHandler dbAbcW dEmptyW "u" 0 7 =
      .error ("Failed to delete instance: Container removal failed: No such container: abc",
        500) ∧
    (∀ x, deleteInstanceHandler dbAbcW dEmptyW "u" 0 7 ≠ .ok x) := by
  refine ⟨rfl, rfl, rfl, ?_⟩
  intro x h
  cases h

/-- C4 amended — delete on a missing container hard-fails: when the looked-up
row's container no longer exists in the runtime, `removeContainer` fails, the
DELETE handler answers 500 wrapping the removal error, and the row is not
updated (the handler performs no store write on this path). -/
theorem delete_missing_container_fails :
    ∀ (db : DbState) (d : DockerState) (userId : String) (id now : Nat)
      (inst : ApiInstance),
      dbFindActive db id userId = some inst →
      d.containers.find? (fun c => c.id == inst.containerId) = none →
      deleteInstanceHandler db d userId id now =
        .error ("Failed to delete instance: Container removal failed: No such container: "
          ++ inst.containerId, 500) := by
  intro db d userId id now inst hfind habs
  rw [show ("Failed to delete instance: Container removal failed: No such container: "
      ++ inst.containerId) =
    ("Failed to delete instance: " ++
      ("Container removal failed: No such container: " ++ inst.containerId)) by
      rw [← String.append_assoc]; rfl]
  simp only [deleteInstanceHandler, hfind, removeContainer_absent habs]

/-- Witness for C4 amended: the concrete owned row for the vanished container
`abc` makes the DELETE handler answer the 500 removal error. -/
theorem delete_missing_container_fails_witness :
    deleteInstanceHandler dbAbcW dEmptyW "u" 0 9 =
      .error ("Failed to delete instance: Container removal failed: No such container: "
        ++ "abc", 500) :=
  delete_missing_container_fails dbAbcW dEmptyW "u" 0 9
    { id := 0, userId := "u", containerId := "abc", containerName := "n1",
      url := "http://localhost:3001", port := 3001, status := Status.RUNNING,
      stoppedAt := none } rfl rfl

/-- C3 counterexample — start failure performs no cleanup: on a create request
whose container create succeeds and whose start fails, the persisted row
stays in CREATING (it does not end in ERROR), the container is still present
in the daemon (no best-effort remove was attempted), and the caller gets the
wrapped start error. -/
theorem start_failure_cex :
    (createInstanceHandler dbEmptyW dEmptyW listingsNone
        ⟨.ok "cid1", some "boom"⟩ "u" 5).1.instances.map (·.status) =
      [Status.CREATING] ∧
    (createInstanceHandler dbEmptyW dEmptyW listingsNone
        ⟨.ok "cid1", some "boom"⟩ "u" 5).2.1.containers.map (·.id) =
      ["cid1"] ∧
    (createInstanceHandler dbEmptyW dEmptyW listingsNone
        ⟨.ok "cid1", some "boom"⟩ "u" 5).2.2 =
      .error ("Failed to create instance: Container start failed: boom", 500) ∧
    Status.CREATING ≠ Status.ERROR := by
  refine ⟨rfl, rfl, rfl, ?_⟩
  decide

/-- C3 amended — start failure leaves the record in CREATING: after a
successful allocation and container create, a failed start leaves the
persisted row exactly as created (status CREATING, not ERROR), leaves the
created container in the daemon (no removal is attempted), and returns a 500
error wrapping the original start error. -/
theorem start_failure_leaves_creating :
    ∀ (db : DbState) (d : DockerState)
      (listings : Nat → Except String (List Container))
      (cid e userId : String) (ts port : Nat),
      allocatePort (activePorts db) listings = .ok port →
      (createInstanceHandler db d listings ⟨.ok cid, some e⟩ userId
          ts).1.instances =
        db.instances ++ [{ id := db.nextId,
                           userId := userId,
                           containerId := cid,
                           containerName := "api-instance-" ++ userId ++ "-" ++ toString ts,
                           url := "http://localhost:" ++ toString port,
                           port := port,
                           status := Status.CREATING,
                           stoppedAt := none }] ∧
      (∃ c ∈ (createInstanceHandler db d listings ⟨.ok cid, some e⟩ userId
          ts).2.1.containers, c.id = cid) ∧
      (createInstanceHandler db d listings ⟨.ok cid, some e⟩ userId ts).2.2 =
        .error ("Failed to create instance: Container start failed: " ++ e,
          500) := by
  intro db d listings cid e userId ts port halloc
  simp only [createInstanceHandler, halloc, dbCreate]
  refine ⟨trivial, ⟨_, List.mem_cons_self _ _, rfl⟩, trivial⟩

/-- Witness for C3 amended: concrete start failure `boom` on the empty
store. -/
theorem start_failure_leaves_creating_witness :
    (createInstanceHandler dbEmptyW dEmptyW listingsNone
        ⟨.ok "cidw", some "oops"⟩ "w" 6).2.2 =
      .error ("Failed to create instance: Container start failed: " ++ "oops",
        500) :=
  (start_failure_leaves_creating dbEmptyW dEmptyW listingsNone "cidw" "oops"
    "w" 6 3001 rfl).2.2

/-- C7 counterexample — no retry on creation rejection: on the empty store
(where the allocator would happily hand out a fresh port — 3001 is returned,
and 999 more are free), a single runtime rejection of the container create
makes the request fail at once with a 500 wrapping the rejection; the store
and daemon come back unchanged, i.e. exactly one allocation-plus-create
attempt was made and no retry happened. -/
theorem create_rejection_no_retry_cex :
    createInstanceHandler dbEmptyW dEmptyW listingsNone
        ⟨.error "port is already allocated", none⟩ "u" 5 =
      (dbEmptyW, dEmptyW,
        .error ("Failed to create instance: Container creation failed: port is already allocated",
          500)) ∧
    allocatePort (activePorts dbEmptyW) listingsNone = .ok 3001 :=
  ⟨rfl, rfl⟩

/-- C7 amended — a rejected container create fails the request immediately:
whenever allocation succeeds and the runtime rejects the create, the handler
performs no retry, persists nothing, changes neither store nor daemon, and
answers 500 wrapping the rejection. -/
theorem create_rejection_fails_request :
    ∀ (db : DbState) (d : DockerState)
      (listings : Nat → Except String (List Container)) (e userId : String)
      (so : Option String) (ts port : Nat),
      allocatePort (activePorts db) listings = .ok port →
      createInstanceHandler db d listings ⟨.error e, so⟩ userId ts =
        (db, d,
          .error ("Failed to create instance: Container creation failed: "
            ++ e, 500)) := by
  intro db d listings e userId so ts port halloc
  simp only [createInstanceHandler, halloc]

/-- Witness for C7 amended: concrete rejected create on the empty store. -/
theorem create_rejection_fails_request_witness :
    createInstanceHandler dbEmptyW dEmptyW listingsNone
        ⟨.error "bind rejected", some "x"⟩ "w" 8 =
      (dbEmptyW, dEmptyW,
        .error ("Failed to create instance: Container creation failed: "
          ++ "bind rejected", 500)) :=
  create_rejection_fails_request dbEmptyW dEmptyW listingsNone "bind rejected"
    "w" (some "x") 8 3001 rfl

/-- C8 — List partial degradation: the GET handler returns one entry per
candidate row (the whole list succeeds), each entry's status re-derived from
its container, and every row whose container inspection fails is reported
with status `ERROR` (because `getContainerStatus` catches the failure and
reports raw status `error`, which the handler upper-cases). -/
theorem list_partial_degradation :
    ∀ (db : DbState) (d : DockerState) (userId : String),
      (listInstancesHandler db d userId).length =
        (db.instances.filter (fun r =>
          r.userId == userId && r.stoppedAt == none)).length ∧
      ∀ r ∈ db.instances.filter (fun r =>
          r.userId == userId && r.stoppedAt == none),
        ∀ e, dockerInspect d r.containerId = .error e →
          listEntry d r ∈ listInstancesHandler db d userId ∧
          (listEntry d r).id = r.id ∧
          (listEntry d r).status = "ERROR" := by
  intro db d userId
  constructor
  · rw [listInstancesHandler, List.length_map]
  · intro r hr e he
    refine ⟨List.mem_map_of_mem _ hr, rfl, ?_⟩
    rw [listEntry, getContainerStatus_never_fails d r.containerId e he]
    rfl

/-- Witness for C8: with the daemon empty, the RUNNING row for the vanished
container `abc` is still listed, as an `ERROR` entry. -/
theorem list_partial_degradation_witness :
    listEntry dEmptyW rowAbcW ∈ listInstancesHandler dbAbcW dEmptyW "u" ∧
    (listEntry dEmptyW rowAbcW).status = "ERROR" :=
  have h := (list_partial_degradation dbAbcW dEmptyW "u").2 rowAbcW
    (by decide) "No such container: abc" rfl
  ⟨h.1, h.2.2⟩

/-- `removeContainer` can only fail when no container carries the id (the
force flag rules the running-container rejection out). -/
lemma removeContainer_error_absent {d : DockerState} {ref e : String}
    (h : removeContainer d ref = .error e) :
    d.containers.find? (fun c => c.id == ref) = none := by
  rw [removeContainer] at h
  cases hrem : dockerRemove (removePrep d ref) ref true with
  | ok d2 => rw [hrem] at h; cases h
  | error e0 =>
    have hnone : (removePrep d ref).containers.find?
        (fun c => c.id == ref) = none := by
      rw [dockerRemove] at hrem
      cases hf : (removePrep d ref).containers.find? (fun c => c.id == ref) with
      | none => rfl
      | some c => rw [hf] at hrem; simp at hrem
    apply List.find?_eq_none.mpr
    intro x hx
    rcases removePrep_cases d ref with hp | hp
    · exact List.find?_eq_none.mp (hp ▸ hnone) x hx
    · have hmem : (if x.id == ref then
          { x with running := false, state := "exited" } else x) ∈
            (removePrep d ref).containers := by
        rw [hp]
        exact List.mem_map_of_mem _ hx
      have hnp := List.find?_eq_none.mp hnone _ hmem
      by_cases hid : (x.id == ref) = true
      · exfalso
        apply hnp
        rw [if_pos hid]
        exact hid
      · exact hid

/-- One cleanup-loop iteration, in closed form: skip recorded ids, otherwise
drop every container carrying the id (whether or not the removal call
succeeded — a failed removal means the id was already absent). -/
lemma cleanupStep_eq (dbIds : List String) (dAcc : DockerState)
    (c : Container) :
    cleanupStep dbIds dAcc c =
      if dbIds.contains c.id then dAcc
      else ⟨dAcc.containers.filter (fun x => !(x.id == c.id))⟩ := by
  rw [cleanupStep]
  by_cases h : dbIds.contains c.id = true
  · rw [if_pos h, if_pos h]
  · rw [if_neg h, if_neg h]
    cases hrem : removeContainer dAcc c.id with
    | ok d' =>
      have := removeContainer_ok_filter hrem
      cases d'
      simp only at this
      rw [this]
    | error e =>
      have habs := removeContainer_error_absent hrem
      have : dAcc.containers.filter (fun x => !(x.id == c.id)) =
          dAcc.containers := by
        apply List.filter_eq_self.mpr
        intro a ha
        have := List.find?_eq_none.mp habs a ha
        simpa using this
      rw [this]

/-- The cleanup loop, in closed form: it drops exactly the containers whose
id matches some listed container that has no store record. -/
lemma cleanup_fold_filter (dbIds : List String) :
    ∀ (todo : List Container) (dAcc : DockerState),
      (todo.foldl (cleanupStep dbIds) dAcc).containers =
        dAcc.containers.filter (fun x =>
          !(todo.any (fun t => x.id == t.id && !(dbIds.contains t.id))))
  | [], dAcc => by simp
  | c :: todo, dAcc => by
    rw [List.foldl_cons, cleanup_fold_filter dbIds todo _, cleanupStep_eq]
    by_cases h : dbIds.contains c.id = true
    · rw [if_pos h]
      apply List.filter_congr
      intro x _
      simp only [List.any_cons, Bool.or_eq_true, Bool.and_eq_true, Bool.not_or]
      simp [h]
      exact fun _ => Or.inr (List.elem_iff.mp h)
    · rw [if_neg h]
      have h' : dbIds.contains c.id = false := by simpa using h
      simp only [List.filter_filter]
      apply List.filter_congr
      intro x _
      cases hxc : x.id == c.id with
      | true =>
        simp [hxc, h']
        exact fun hmem => absurd (List.elem_iff.mpr hmem) h
      | false => simp [hxc, h']

/-- C6 counterexample — the reaper reconciles against ALL rows, not only the
active ones: a labelled container whose only store row is STOPPED survives
the reap cycle even though no active (CREATING/RUNNING) record backs it. -/
theorem cleanup_stopped_record_cex :
    ∃ c ∈ (cleanupOrphanedContainers dAbcW dbStoppedW).containers,
      c.serviceLabel = "dummy-api" ∧
      ¬ ∃ r ∈ dbStoppedW.instances, isActive r = true ∧
        r.containerId = c.id := by
  decide

/-- C6 amended — after a reap cycle (with distinct container ids on the
daemon), the surviving containers are exactly those that either do not bear
the sandbox service label or whose id is the `containerId` of SOME persisted
row (of any status); consequently every surviving labelled container is
backed by a persisted record. -/
theorem cleanup_removes_exactly_unrecorded :
    ∀ (d : DockerState) (db : DbState),
      (d.containers.map (·.id)).Nodup →
      (cleanupOrphanedContainers d db).containers =
        d.containers.filter (fun c =>
          !(c.serviceLabel == "dummy-api") ||
            (db.instances.map (·.containerId)).contains c.id) ∧
      ∀ c ∈ (cleanupOrphanedContainers d db).containers,
        c.serviceLabel = "dummy-api" →
          ∃ r ∈ db.instances, r.containerId = c.id := by
  intro d db hnd
  have hmain : (cleanupOrphanedContainers d db).containers =
      d.containers.filter (fun c =>
        !(c.serviceLabel == "dummy-api") ||
          (db.instances.map (·.containerId)).contains c.id) := by
    rw [cleanupOrphanedContainers]
    rw [cleanup_fold_filter]
    apply List.filter_congr
    intro x hx
    by_cases hm : (db.instances.map (·.containerId)).contains x.id = true
    · rw [hm, Bool.or_true]
      rw [Bool.not_eq_true']
      apply List.any_eq_false.mpr
      intro t ht
      simp only [Bool.and_eq_true, Bool.not_eq_true', beq_iff_eq, not_and]
      intro hid hcon
      simp only [← hid] at hcon
      rw [hm] at hcon
      cases hcon
    · have hm' : (db.instances.map (·.containerId)).contains x.id = false := by
        simpa using hm
      rw [hm', Bool.or_false]
      by_cases hl : (x.serviceLabel == "dummy-api") = true
      · rw [hl, Bool.not_true, Bool.not_eq_false']
        apply List.any_eq_true.mpr
        refine ⟨x, List.mem_filter.mpr ⟨hx, hl⟩, ?_⟩
        simp [hm']
        intro r hr heq
        have hmem2 : (db.instances.map (·.containerId)).contains x.id = true :=
          List.elem_iff.mpr (List.mem_map.mpr ⟨r, hr, heq⟩)
        rw [hmem2] at hm'
        cases hm'
      · have hl' : (x.serviceLabel == "dummy-api") = false := by simpa using hl
        rw [hl', Bool.not_false, Bool.not_eq_true']
        apply List.any_eq_false.mpr
        intro t ht
        simp only [Bool.and_eq_true, Bool.not_eq_true', beq_iff_eq, not_and]
        intro hid
        exfalso
        obtain ⟨htd, htl⟩ := List.mem_filter.mp ht
        have hxt : x = t :=
          List.inj_on_of_nodup_map hnd hx htd hid
        rw [← hxt] at htl
        rw [htl] at hl'
        cases hl'
  refine ⟨hmain, ?_⟩
  intro c hc hlab
  rw [hmain] at hc
  have hp := List.of_mem_filter hc
  have hlab' : (c.serviceLabel == "dummy-api") = true := beq_iff_eq.mpr hlab
  rw [hlab', Bool.not_true, Bool.false_or] at hp
  have hmem : c.id ∈ db.instances.map (·.containerId) := List.elem_iff.mp hp
  obtain ⟨r, hr, hrid⟩ := List.mem_map.mp hmem
  exact ⟨r, hr, hrid⟩

/-- Witness for C6 amended: the concrete reap over daemon `{abc}` and the
STOPPED-row store keeps `abc` (its id is recorded), matching the filter
characterization. -/
theorem cleanup_removes_exactly_unrecorded_witness :
    (cleanupOrphanedContainers dAbcW dbStoppedW).containers =
      dAbcW.containers.filter (fun c =>
        !(c.serviceLabel == "dummy-api") ||
          (dbStoppedW.instances.map (·.containerId)).contains c.id) :=
  (cleanup_removes_exactly_unrecorded dAbcW dbStoppedW (by decide)).1

/-- Mapping an id-preserving function keeps id-distinctness. -/
lemma pairwise_ids_map {l : List ApiInstance} (f : ApiInstance → ApiInstance)
    (hid : ∀ r, (f r).id = r.id)
    (h : l.Pairwise (fun a b => a.id ≠ b.id)) :
    (l.map f).Pairwise (fun a b => a.id ≠ b.id) := by
  rw [List.pairwise_map]
  exact h.imp (fun hab => by rw [hid, hid]; exact hab)

/-- Mapping a port-preserving, activity-non-increasing function keeps
pairwise port-uniqueness. -/
lemma pairwise_ports_map {l : List ApiInstance} (f : ApiInstance → ApiInstance)
    (hport : ∀ r, (f r).port = r.port)
    (hact : ∀ r, isActive (f r) = true → isActive r = true)
    (h : l.Pairwise (fun a b =>
      isActive a = true → isActive b = true → a.port ≠ b.port)) :
    (l.map f).Pairwise (fun a b =>
      isActive a = true → isActive b = true → a.port ≠ b.port) := by
  rw [List.pairwise_map]
  refine h.imp ?_
  intro a b hab ha hb
  rw [hport, hport]
  exact hab (hact _ ha) (hact _ hb)

/-- Appending a fresh-id row whose port no active row carries preserves both
store well-formedness and port-uniqueness. -/
lemma wf_pu_append (db : DbState) (row : ApiInstance) (m : Nat)
    (hid : row.id = db.nextId) (hm : db.nextId < m)
    (hport : row.port ∉ activePorts db)
    (hwf : dbWellFormed db) (hpu : portsUnique db) :
    dbWellFormed ⟨db.instances ++ [row], m⟩ ∧
      portsUnique ⟨db.instances ++ [row], m⟩ := by
  refine ⟨⟨?_, ?_⟩, ?_⟩
  · intro r hr
    rcases List.mem_append.mp hr with h | h
    · exact Nat.lt_trans (hwf.1 r h) hm
    · rw [List.mem_singleton.mp h, hid]
      exact hm
  · apply List.pairwise_append.mpr
    refine ⟨hwf.2, List.pairwise_singleton _ _, ?_⟩
    intro a ha b hb
    rw [List.mem_singleton.mp hb, hid]
    exact Nat.ne_of_lt (hwf.1 a ha)
  · apply List.pairwise_append.mpr
    refine ⟨hpu, List.pairwise_singleton _ _, ?_⟩
    intro a ha b hb haact hbact
    rw [List.mem_singleton.mp hb]
    intro heq
    exact hport (heq ▸ mem_activePorts.mpr ⟨a, ha, haact, rfl⟩)

/-- A conditional row update whose id matches no row of `l` rewrites only the
appended row. -/
lemma map_fresh_append (l : List ApiInstance) (row : ApiInstance)
    (g : ApiInstance → ApiInstance) (i : Nat)
    (hfresh : ∀ r ∈ l, (r.id == i) = false) :
    (l ++ [row]).map (fun r => if r.id == i then g r else r) =
      l ++ [if row.id == i then g row else row] := by
  rw [List.map_append]
  congr 1
  have hcong : ∀ r ∈ l, (if r.id == i then g r else r) = id r := by
    intro r hr
    rw [hfresh r hr]
    simp
  rw [List.map_congr_left hcong, List.map_id]

/-- Updating a row to STOPPED preserves well-formedness and
port-uniqueness. -/
lemma update_stopped_preserves (db : DbState) (i : Nat) (sa : Option Nat)
    (hwf : dbWellFormed db) (hpu : portsUnique db) :
    dbWellFormed (dbUpdateStatus db i Status.STOPPED sa) ∧
      portsUnique (dbUpdateStatus db i Status.STOPPED sa) := by
  refine ⟨⟨?_, ?_⟩, ?_⟩
  · intro r hr
    obtain ⟨a, ha, hra⟩ := List.mem_map.mp hr
    have hida : r.id = a.id := by
      rw [← hra]
      by_cases h : (a.id == i) = true <;> simp [h]
    rw [hida]
    exact hwf.1 a ha
  · apply pairwise_ids_map
    · intro r
      by_cases h : (r.id == i) = true <;> simp [h]
    · exact hwf.2
  · apply pairwise_ports_map
    · intro r
      by_cases h : (r.id == i) = true <;> simp [h]
    · intro r hact
      by_cases h : (r.id == i) = true
      · rw [if_pos h] at hact
        simp [isActive] at hact
      · rwa [if_neg h] at hact
    · exact hpu

/-- A create request preserves store well-formedness and port-uniqueness,
whatever the daemon state, listings and environment outcomes. -/
lemma create_preserves (db : DbState) (d : DockerState)
    (listings : Nat → Except String (List Container)) (oracle : CreateOracle)
    (userId : String) (ts : Nat)
    (hwf : dbWellFormed db) (hpu : portsUnique db) :
    dbWellFormed (createInstanceHandler db d listings oracle userId ts).1 ∧
      portsUnique (createInstanceHandler db d listings oracle userId ts).1 := by
  cases halloc : allocatePort (activePorts db) listings with
  | error e =>
    simp only [createInstanceHandler, halloc]
    exact ⟨hwf, hpu⟩
  | ok port =>
    have hport : port ∉ activePorts db := (allocatePort_ok halloc).2.2.1
    cases hco : oracle.createResult with
    | error e =>
      simp only [createInstanceHandler, halloc, hco]
      exact ⟨hwf, hpu⟩
    | ok cid =>
      have hfresh : ∀ r ∈ db.instances, (r.id == db.nextId) = false := by
        intro r hr
        simp [Nat.ne_of_lt (hwf.1 r hr)]
      cases hso : oracle.startError with
      | some e =>
        simp only [createInstanceHandler, halloc, hco, hso, dbCreate]
        exact wf_pu_append db _ _ rfl (Nat.lt_succ_self _) hport hwf hpu
      | none =>
        simp only [createInstanceHandler, halloc, hco, hso, dbCreate,
          dbUpdateStatus]
        rw [map_fresh_append db.instances _ _ _ hfresh]
        exact wf_pu_append db _ _ (by simp) (Nat.lt_succ_self _)
          (by simpa using hport) hwf hpu

/-- A delete request preserves store well-formedness and port-uniqueness. -/
lemma delete_preserves (db : DbState) (d : DockerState) (userId : String)
    (id now : Nat) (hwf : dbWellFormed db) (hpu : portsUnique db) :
    dbWellFormed (deleteDbResult db d userId id now) ∧
      portsUnique (deleteDbResult db d userId id now) := by
  rw [deleteDbResult]
  cases hfind : dbFindActive db id userId with
  | none =>
    simp only [deleteInstanceHandler, hfind]
    exact ⟨hwf, hpu⟩
  | some inst =>
    cases hrem : removeContainer d inst.containerId with
    | error e =>
      simp only [deleteInstanceHandler, hfind, hrem]
      exact ⟨hwf, hpu⟩
    | ok d2 =>
      simp only [deleteInstanceHandler, hfind, hrem]
      exact update_stopped_preserves db inst.id (some now) hwf hpu

/-- Every reachable store is well-formed and port-unique. -/
lemma reachable_inv : ∀ db : DbState, Reachable db →
    dbWellFormed db ∧ portsUnique db := by
  intro db h
  induction h with
  | init =>
    refine ⟨⟨?_, ?_⟩, ?_⟩
    · intro r hr; cases hr
    · exact List.Pairwise.nil
    · exact List.Pairwise.nil
  | step hr hs ih =>
    cases hs with
    | create d listings oracle userId ts =>
      exact create_preserves _ d listings oracle userId ts ih.1 ih.2
    | delete d userId id now =>
      exact delete_preserves _ d userId id now ih.1 ih.2

/-- C1 — Port uniqueness invariant: in every store reachable under
sequential create and delete operations, any two distinct active
(CREATING/RUNNING) rows carry distinct ports, and every single create or
delete operation applied to a reachable store preserves the predicate. -/
theorem port_uniqueness_invariant :
    ∀ db : DbState, Reachable db →
      portsUnique db ∧ ∀ db' : DbState, Step db db' → portsUnique db' := by
  intro db h
  refine ⟨(reachable_inv db h).2, ?_⟩
  intro db' hs
  exact (reachable_inv db' (Reachable.step h hs)).2

/-- Witness for C1: the store after one concrete successful create (port
3001, container `c1`) is reachable and port-unique. -/
theorem port_uniqueness_invariant_witness :
    portsUnique (createInstanceHandler ⟨[], 0⟩ dEmptyW listingsNone
      ⟨.ok "c1", none⟩ "u" 5).1 :=
  (port_uniqueness_invariant _
    (Reachable.step Reachable.init
      (Step.create ⟨[], 0⟩ dEmptyW listingsNone ⟨.ok "c1", none⟩ "u" 5))).1
